import Mathlib

/-!
Verification of the esparrag_meta_service schema model and validation engine
(src/lib.rs) against its specification.

The JSON values consumed by the document validator are serde_json values:
numbers are stored either as an unsigned 64-bit integer, a negative signed
64-bit integer, or a 64-bit float. The validator only ever asks a float-stored
number for its tag (is_f64), never for its payload, so the float payload is
not modelled.
-/

namespace Esparrag

/-- A serde_json number: PosInt holds a u64 (any non-negative integer literal),
NegInt holds a negative i64, Float is a number stored as f64 (a literal with a
fractional part or exponent, or outside integer range). The validator never
reads a float payload, so none is carried. -/
inductive JsonNumber where
  | posInt (n : Nat)
  | negInt (i : Int)
  | float

/-- A serde_json Value: the untyped document tree. -/
inductive Json where
  | null
  | bool (b : Bool)
  | num (n : JsonNumber)
  | str (s : String)
  | arr (elems : List Json)
  | obj (fields : List (String × Json))

/-- serde_json Number::as_u64: Some exactly for non-negative integer-stored
numbers (the PosInt representation). -/
def Json.as_u64 : Json → Option Nat
  | .num (.posInt n) => some n
  | _ => none

/-- i64::MAX. -/
def i64_max : Int := 9223372036854775807

/-- serde_json Number::as_i64: Some for integer-stored numbers representable
as i64 (every NegInt, and a PosInt not above i64::MAX). -/
def Json.as_i64 : Json → Option Int
  | .num (.posInt n) => if (n : Int) ≤ i64_max then some (n : Int) else none
  | .num (.negInt i) => some i
  | _ => none

/-- serde_json Value::is_f64: true exactly for float-stored numbers. -/
def Json.is_f64 : Json → Bool
  | .num .float => true
  | _ => false

/-- serde_json Value::is_boolean. -/
def Json.is_boolean : Json → Bool
  | .bool _ => true
  | _ => false

/-- serde_json Value::is_string. -/
def Json.is_string : Json → Bool
  | .str _ => true
  | _ => false

/-- serde_json Value::as_str. -/
def Json.as_str : Json → Option String
  | .str s => some s
  | _ => none

/-- serde_json Value::get with a string key: Some for a present key of an
object, None for an absent key or a non-object. -/
def Json.get : Json → String → Option Json
  | .obj fields, key => fields.lookup key
  | _, _ => none

/-- serde_json Value indexing (request["action_name"]): the value under the
key, or Null when the key is absent or the value is not an object. -/
def Json.index (j : Json) (key : String) : Json :=
  (j.get key).getD .null

/-- ParameterType from src/lib.rs lines 45-58: parameter types of actions.
There are exactly these eleven variants. -/
inductive ParameterType where
  | Bool
  | Uint8
  | Uint16
  | Uint32
  | Uint64
  | Int8
  | Int16
  | Int32
  | Float
  | String
  | Enum (possibles : List String)
  deriving DecidableEq

/-- Output from src/lib.rs: outputs of a possible action. -/
structure Output where
  param_name : String
  description : String
  type_ : ParameterType
  deriving DecidableEq

/-- Parameter from src/lib.rs: parameters of a possible action. -/
structure Parameter where
  param_name : String
  description : String
  type_ : ParameterType
  required : Bool
  default : Option String
  deriving DecidableEq

/-- Action from src/lib.rs. -/
structure Action where
  action_name : String
  description : String
  parameters : List Parameter
  outputs : List Output
  deriving DecidableEq

/-- ServiceMeta from src/lib.rs: a service API description. -/
structure ServiceMeta where
  service_name : String
  description : String
  actions : List Action
  deriving DecidableEq

/-- u8::max_value() as u64. -/
def u8_max : Nat := 255

/-- u16::max_value() as u64. -/
def u16_max : Nat := 65535

/-- u32::max_value() as u64. -/
def u32_max : Nat := 4294967295

/-- i8::max_value() as i64. -/
def i8_max : Int := 127

/-- i16::max_value() as i64. -/
def i16_max : Int := 32767

/-- i32::max_value() as i64. -/
def i32_max : Int := 2147483647

/-- The per-kind value check inside ServiceMeta::caters_parameter
(src/lib.rs lines 141-185): the match over parameter.type_ applied to the
field value found in the request. Each arm that falls through to the
function's trailing false (an as_u64/as_i64/as_str returning None) is the
none branch here. Note the source checks Uint64 against u32::max_value, and
checks signed kinds only against their upper bound. -/
def kind_accepts : ParameterType → Json → Bool
  | .Uint8, rp =>
    match rp.as_u64 with
    | some value => decide (value ≤ u8_max)
    | none => false
  | .Uint16, rp =>
    match rp.as_u64 with
    | some value => decide (value ≤ u16_max)
    | none => false
  | .Uint32, rp =>
    match rp.as_u64 with
    | some value => decide (value ≤ u32_max)
    | none => false
  | .Uint64, rp =>
    match rp.as_u64 with
    | some value => decide (value ≤ u32_max)
    | none => false
  | .Int8, rp =>
    match rp.as_i64 with
    | some value => decide (value ≤ i8_max)
    | none => false
  | .Int16, rp =>
    match rp.as_i64 with
    | some value => decide (value ≤ i16_max)
    | none => false
  | .Int32, rp =>
    match rp.as_i64 with
    | some value => decide (value ≤ i32_max)
    | none => false
  | .Bool, rp => rp.is_boolean
  | .Float, rp => rp.is_f64
  | .String, rp => rp.is_string
  | .Enum possibles, rp =>
    match rp.as_str with
    | some value => possibles.contains value
    | none => false

/-- ServiceMeta::caters_parameter (src/lib.rs lines 135-189): a non-required
parameter always passes; a required one passes iff the request has a
same-named top-level field whose value passes the per-kind check. The
source's trailing false is the none branch (field absent) together with the
none branches inside kind_accepts. -/
def caters_parameter (parameter : Parameter) (request : Json) : Bool :=
  if !parameter.required then true
  else
    match request.get parameter.param_name with
    | some requested_parameter => kind_accepts parameter.type_ requested_parameter
    | none => false

/-- ServiceMeta::get_action (src/lib.rs lines 121-133): read
request["action_name"]; when it is a string, the first declared action with
that exact action_name, else None. -/
def ServiceMeta.get_action (meta : ServiceMeta) (request : Json) : Option Action :=
  match request.index "action_name" with
  | .str requested_action =>
    meta.actions.find? (fun action => requested_action == action.action_name)
  | _ => none

/-- The parameter loop of ServiceMeta::caters (src/lib.rs lines 112-116):
stop at the first parameter that fails with Err("Parameter not found"). -/
def caters_params : List Parameter → Json → Except String Unit
  | [], _ => .ok ()
  | p :: rest, request =>
    if caters_parameter p request then caters_params rest request
    else .error "Parameter not found"

/-- ServiceMeta::caters (src/lib.rs lines 109-119). -/
def ServiceMeta.caters (meta : ServiceMeta) (request : Json) : Except String Unit :=
  match meta.get_action request with
  | none => .error "action not found"
  | some action => caters_params action.parameters request

/-- Modelled from the spec: RequestParameter of the Request Envelope (spec
section 3), whose source is not under src/. A concrete parameter value as
text plus the kind the sender claims the value has. -/
structure RequestParameter where
  param_name : String
  value : String
  type_ : ParameterType
  deriving DecidableEq

/-- Modelled from the spec: ServiceRequest of the Request Envelope (spec
section 3), whose source is not under src/. The correlation id travels as a
string (spec section 6). -/
structure ServiceRequest where
  action_name : String
  uuid : String
  parameters : List RequestParameter
  deriving DecidableEq

/-- Modelled from the spec: action resolution of the Envelope Validator
(spec section 4.3 step 1), whose source is not under src/. Lookup is by
exact equality against action_name, first match in declaration order. -/
def envelope_get_action (meta : ServiceMeta) (req : ServiceRequest) : Option Action :=
  meta.actions.find? (fun action => req.action_name == action.action_name)

/-- Modelled from the spec: the required-parameter loop of the Envelope
Validator (spec section 4.3 steps 2-4), whose source is not under src/. For
every required Parameter, the request must hold an entry with the same name
and a structurally equal declared kind; the textual value is never
inspected; the first failure rejects with MissingRequiredParameter. -/
def envelope_caters_params : List Parameter → ServiceRequest → Except String Unit
  | [], _ => .ok ()
  | p :: rest, req =>
    if !p.required then envelope_caters_params rest req
    else if req.parameters.any
        (fun rp => rp.param_name == p.param_name && rp.type_ == p.type_) then
      envelope_caters_params rest req
    else .error "MissingRequiredParameter"

/-- Modelled from the spec: the Envelope Validator (spec section 4.3), whose
source is not under src/. Accept iff the action is found and every required
Parameter has a matching name-and-kind entry in the request. -/
def ServiceMeta.envelope_caters (meta : ServiceMeta) (req : ServiceRequest) :
    Except String Unit :=
  match envelope_get_action meta req with
  | none => .error "ActionNotFound"
  | some action => envelope_caters_params action.parameters req

/-- The serde external tag of each ParameterType variant, as the derive in
src/lib.rs serializes it (a bare tag string for the unit variants, the tag
of the payload-carrying object for Enum; see the embedded SERVICE_1 sample). -/
def kind_tag : ParameterType → String
  | .Bool => "Bool"
  | .Uint8 => "Uint8"
  | .Uint16 => "Uint16"
  | .Uint32 => "Uint32"
  | .Uint64 => "Uint64"
  | .Int8 => "Int8"
  | .Int16 => "Int16"
  | .Int32 => "Int32"
  | .Float => "Float"
  | .String => "String"
  | .Enum _ => "Enum"

/-- The variant tags the source's ParameterType declares, in declaration
order (src/lib.rs lines 45-58). -/
def source_kind_tags : List String :=
  ["Bool", "Uint8", "Uint16", "Uint32", "Uint64",
   "Int8", "Int16", "Int32", "Float", "String", "Enum"]

/-- The variant tags the spec's ParameterKind names (spec section 3), written
from the spec's words for comparison with the source type: the spec lists
Int64 and Double in addition to the source's eleven variants. -/
def spec_kind_tags : List String :=
  ["Bool", "Uint8", "Uint16", "Uint32", "Uint64",
   "Int8", "Int16", "Int32", "Int64", "Float", "Double", "String", "Enum"]

/-- A required parameter with a given name and kind (description and default
play no role in validation). -/
def rparam (name : String) (t : ParameterType) : Parameter :=
  { param_name := name, description := "", type_ := t,
    required := true, default := none }

/-- A document holding exactly one top-level field. -/
def field_doc (name : String) (v : Json) : Json :=
  .obj [(name, v)]

/-- The test fixture mock_service of src/lib.rs lines 198-230: service_1
with action_1, a required Uint32 parameter a_number_1 and a non-required
Int32 parameter a_number_2. -/
def mock_action_1 : Action :=
  { action_name := "action_1",
    description := "action 1 does something",
    parameters :=
      [{ param_name := "a_number_1",
         description := "this number can be only positive and is required!",
         type_ := .Uint32, required := true, default := none },
       { param_name := "a_number_2",
         description := "this number can be positive and negative and is not required",
         type_ := .Int32, required := false, default := some "0" }],
    outputs :=
      [{ param_name := "message",
         description := "a message of success or failure",
         type_ := .Enum ["ENUM_1", "ENUM_2"] }] }

/-- The test fixture service of src/lib.rs lines 198-230. -/
def mock_service : ServiceMeta :=
  { service_name := "service_1",
    description := "a test service",
    actions := [mock_action_1] }

/-- A service with one action named a and one required parameter x of the
given kind. -/
def single_meta (t : ParameterType) : ServiceMeta :=
  { service_name := "s", description := "",
    actions :=
      [{ action_name := "a", description := "",
         parameters := [rparam "x" t], outputs := [] }] }

theorem caters_parameter_true_iff (p : Parameter) (request : Json) :
    caters_parameter p request = true ↔
      (p.required = false ∨
        ∃ v, request.get p.param_name = some v ∧ kind_accepts p.type_ v = true) := by
  unfold caters_parameter
  cases hreq : p.required with
  | false => simp
  | true =>
    simp only [Bool.not_true, Bool.false_eq_true, if_false, false_or]
    cases hget : request.get p.param_name with
    | none => simp
    | some v => simp

theorem caters_params_ok_iff (ps : List Parameter) (request : Json) :
    caters_params ps request = .ok () ↔
      ∀ p ∈ ps, caters_parameter p request = true := by
  induction ps with
  | nil => simp [caters_params]
  | cons p rest ih =>
    by_cases h : caters_parameter p request = true
    · simp [caters_params, h, ih]
    · simp only [caters_params, if_neg h]
      constructor
      · intro he
        exact Except.noConfusion he
      · intro hall
        exact absurd (hall p (List.mem_cons_self p rest)) h

theorem caters_params_error_name (ps : List Parameter) (request : Json) (e : String) :
    caters_params ps request = .error e → e = "Parameter not found" := by
  induction ps with
  | nil => intro h; exact Except.noConfusion h
  | cons p rest ih =>
    intro h
    by_cases hp : caters_parameter p request = true
    · exact ih (by simpa [caters_params, hp] using h)
    · simp only [caters_params, if_neg hp] at h
      exact ((Except.error.injEq _ _).mp h).symm

theorem field_doc_get (nm : String) (v : Json) :
    (field_doc nm v).get nm = some v := by
  simp [field_doc, Json.get, List.lookup]

theorem rparam_caters (nm : String) (t : ParameterType) (v : Json) :
    caters_parameter (rparam nm t) (field_doc nm v) = kind_accepts t v := by
  simp [caters_parameter, rparam, field_doc_get]

theorem kind_accepts_null (t : ParameterType) : kind_accepts t .null = false := by
  cases t <;> rfl

theorem get_action_none_iff (meta : ServiceMeta) (request : Json) :
    meta.get_action request = none ↔
      ((∀ s, request.index "action_name" ≠ .str s) ∨
        (∃ s, request.index "action_name" = .str s ∧
          ∀ a ∈ meta.actions, a.action_name ≠ s)) := by
  unfold ServiceMeta.get_action
  cases hidx : request.index "action_name" with
  | str s =>
    simp only [List.find?_eq_none]
    constructor
    · intro h
      refine Or.inr ⟨s, rfl, fun a ha => ?_⟩
      have := h a ha
      simp only [beq_iff_eq] at this
      exact fun he => this (he ▸ rfl)
    · intro h a ha
      rcases h with h | ⟨t, ht, hall⟩
      · exact absurd rfl (h s)
      · have hst : s = t := by
          injection ht
        simp only [beq_iff_eq]
        intro he
        exact hall a ha (he.symm.trans hst)
  | null => simp
  | bool b => simp
  | num n => simp
  | arr elems => simp
  | obj fields => simp

theorem get_action_congr (meta : ServiceMeta) (r1 r2 : Json)
    (h : r1.index "action_name" = r2.index "action_name") :
    meta.get_action r1 = meta.get_action r2 := by
  unfold ServiceMeta.get_action
  rw [h]

theorem caters_error_action_iff (meta : ServiceMeta) (request : Json) :
    meta.caters request = .error "action not found" ↔
      meta.get_action request = none := by
  unfold ServiceMeta.caters
  cases hga : meta.get_action request with
  | none => simp
  | some action =>
    constructor
    · intro h
      exact absurd (caters_params_error_name action.parameters request _ h) (by decide)
    · intro h
      exact Option.noConfusion h

/-- C1: document-mode validation (caters) succeeds iff the document's
action_name resolves to a declared Action and every required Parameter of
that Action has a same-named top-level field whose value is compatible with
the Parameter's declared kind; the only reported reasons are the
action-not-found reason (exactly when resolution fails, before any
parameter is checked) and the single parameter reason, with no aggregation. -/
theorem C1_caters_characterization (meta : ServiceMeta) (request : Json) :
    (meta.caters request = .ok () ↔
      ∃ a, meta.get_action request = some a ∧
        ∀ p ∈ a.parameters, p.required = true →
          ∃ v, request.get p.param_name = some v ∧ kind_accepts p.type_ v = true)
  ∧ (meta.caters request = .error "action not found" ↔
      meta.get_action request = none)
  ∧ (∀ e, meta.caters request = .error e →
      e = "action not found" ∨ e = "Parameter not found") := by
  refine ⟨?_, caters_error_action_iff meta request, ?_⟩
  · unfold ServiceMeta.caters
    cases hga : meta.get_action request with
    | none =>
      constructor
      · intro h
        exact Except.noConfusion h
      · rintro ⟨a, ha, _⟩
        exact Option.noConfusion ha
    | some action =>
      rw [caters_params_ok_iff]
      constructor
      · intro h
        refine ⟨action, rfl, fun p hp hreq => ?_⟩
        rcases (caters_parameter_true_iff p request).mp (h p hp) with h1 | h2
        · rw [hreq] at h1
          exact Bool.noConfusion h1
        · exact h2
      · rintro ⟨a, ha, hall⟩ p hp
        injection ha with ha2
        subst ha2
        apply (caters_parameter_true_iff p request).mpr
        cases hreq : p.required with
        | false => exact Or.inl rfl
        | true => exact Or.inr (hall p hp hreq)
  · intro e he
    unfold ServiceMeta.caters at he
    cases hga : meta.get_action request with
    | none =>
      rw [hga] at he
      exact Or.inl ((Except.error.injEq _ _).mp he).symm
    | some action =>
      rw [hga] at he
      exact Or.inr (caters_params_error_name _ _ _ he)

/-- C3: document-mode validation rejects with the action-not-found reason
exactly when the action_name field is missing or not a string (the index is
no string value), or is a string matching no declared Action by exact
equality; and resolution succeeds whenever some declared Action carries the
requested name. -/
theorem C3_action_not_found (meta : ServiceMeta) (request : Json) :
    (meta.caters request = .error "action not found" ↔
      ((∀ s, request.index "action_name" ≠ .str s) ∨
        (∃ s, request.index "action_name" = .str s ∧
          ∀ a ∈ meta.actions, a.action_name ≠ s)))
  ∧ ((∃ s, request.index "action_name" = .str s ∧
        ∃ a ∈ meta.actions, a.action_name = s) →
      ∃ a, meta.get_action request = some a) := by
  constructor
  · rw [caters_error_action_iff]
    exact get_action_none_iff meta request
  · rintro ⟨s, hs, a, ha, hname⟩
    cases hga : meta.get_action request with
    | some b => exact ⟨b, rfl⟩
    | none =>
      rcases (get_action_none_iff meta request).mp hga with h | ⟨t, ht, hall⟩
      · exact absurd hs (h s)
      · have hst : Json.str s = Json.str t := hs.symm.trans ht
        have hst2 : s = t := by injection hst
        exact absurd (hname.trans hst2) (hall a ha)

/-- C2: in document mode a required integer-kind field is accepted iff its
value is representable by the matching serde accessor (as_u64 for unsigned
kinds, as_i64 for signed kinds, so no lower-bound check for signed kinds)
and does not exceed the kind's upper bound, with Uint64 capped at the
32-bit unsigned maximum; at the boundaries, Uint32 accepts 4294967295 and
rejects 4294967296, and Int32 accepts 2147483647 and also -2147483648. -/
theorem C2_integer_kind_bounds (nm : String) (v : Json) :
    (caters_parameter (rparam nm .Uint8) (field_doc nm v) = true ↔
      ∃ n, v.as_u64 = some n ∧ n ≤ u8_max)
  ∧ (caters_parameter (rparam nm .Uint16) (field_doc nm v) = true ↔
      ∃ n, v.as_u64 = some n ∧ n ≤ u16_max)
  ∧ (caters_parameter (rparam nm .Uint32) (field_doc nm v) = true ↔
      ∃ n, v.as_u64 = some n ∧ n ≤ u32_max)
  ∧ (caters_parameter (rparam nm .Uint64) (field_doc nm v) = true ↔
      ∃ n, v.as_u64 = some n ∧ n ≤ u32_max)
  ∧ (caters_parameter (rparam nm .Int8) (field_doc nm v) = true ↔
      ∃ i, v.as_i64 = some i ∧ i ≤ i8_max)
  ∧ (caters_parameter (rparam nm .Int16) (field_doc nm v) = true ↔
      ∃ i, v.as_i64 = some i ∧ i ≤ i16_max)
  ∧ (caters_parameter (rparam nm .Int32) (field_doc nm v) = true ↔
      ∃ i, v.as_i64 = some i ∧ i ≤ i32_max)
  ∧ caters_parameter (rparam nm .Uint32)
      (field_doc nm (.num (.posInt 4294967295))) = true
  ∧ caters_parameter (rparam nm .Uint32)
      (field_doc nm (.num (.posInt 4294967296))) = false
  ∧ caters_parameter (rparam nm .Int32)
      (field_doc nm (.num (.posInt 2147483647))) = true
  ∧ caters_parameter (rparam nm .Int32)
      (field_doc nm (.num (.negInt (-2147483648)))) = true := by
  simp only [rparam_caters]
  refine ⟨?_, ?_, ?_, ?_, ?_, ?_, ?_, by decide, by decide, by decide, by decide⟩
  · cases h : v.as_u64 with
    | none => simp [kind_accepts, h]
    | some n => simp [kind_accepts, h]
  · cases h : v.as_u64 with
    | none => simp [kind_accepts, h]
    | some n => simp [kind_accepts, h]
  · cases h : v.as_u64 with
    | none => simp [kind_accepts, h]
    | some n => simp [kind_accepts, h]
  · cases h : v.as_u64 with
    | none => simp [kind_accepts, h]
    | some n => simp [kind_accepts, h]
  · cases h : v.as_i64 with
    | none => simp [kind_accepts, h]
    | some i => simp [kind_accepts, h]
  · cases h : v.as_i64 with
    | none => simp [kind_accepts, h]
    | some i => simp [kind_accepts, h]
  · cases h : v.as_i64 with
    | none => simp [kind_accepts, h]
    | some i => simp [kind_accepts, h]

/-- C5 counterexample: a document supplying the required Float parameter as
the integer-written numeric literal 33 is rejected, because serde_json
stores 33 as an integer and is_f64 is false for it. -/
theorem C5_counterexample_integer_literal :
    (single_meta .Float).caters
      (.obj [("action_name", .str "a"), ("x", .num (.posInt 33))]) =
      .error "Parameter not found" := by
  rfl

/-- C5 (amended): in document mode a required Float field is accepted iff
its value is a float-stored number (serde_json is_f64, e.g. a literal
written with a fractional part such as 3.5); a numeric literal stored as an
integer, such as 33, is rejected. -/
theorem C5_float_accepts_only_f64 (nm : String) (v : Json) :
    caters_parameter (rparam nm .Float) (field_doc nm v) = true ↔
      v = .num .float := by
  rw [rparam_caters]
  cases v with
  | num n => cases n <;> simp [kind_accepts, Json.is_f64]
  | null => simp [kind_accepts, Json.is_f64]
  | bool b => simp [kind_accepts, Json.is_f64]
  | str s => simp [kind_accepts, Json.is_f64]
  | arr elems => simp [kind_accepts, Json.is_f64]
  | obj fields => simp [kind_accepts, Json.is_f64]

/-- C6: in document mode a required Enum field is accepted iff its value is
a string literal exactly equal to one of the allowed values; "RED" against
Enum(["RED","BLUE"]) accepts and "ORANGE" rejects. -/
theorem C6_enum_membership (nm : String) (allowed : List String) (v : Json) :
    (caters_parameter (rparam nm (.Enum allowed)) (field_doc nm v) = true ↔
      ∃ s, v = .str s ∧ s ∈ allowed)
  ∧ caters_parameter (rparam nm (.Enum ["RED", "BLUE"]))
      (field_doc nm (.str "RED")) = true
  ∧ caters_parameter (rparam nm (.Enum ["RED", "BLUE"]))
      (field_doc nm (.str "ORANGE")) = false := by
  simp only [rparam_caters]
  refine ⟨?_, by decide, by decide⟩
  cases v with
  | str s => simp [kind_accepts, Json.as_str]
  | null => simp [kind_accepts, Json.as_str]
  | bool b => simp [kind_accepts, Json.as_str]
  | num n => simp [kind_accepts, Json.as_str]
  | arr elems => simp [kind_accepts, Json.as_str]
  | obj fields => simp [kind_accepts, Json.as_str]

theorem caters_params_congr (ps : List Parameter) (d1 d2 : Json)
    (h : ∀ p ∈ ps, p.required = true → d1.get p.param_name = d2.get p.param_name) :
    caters_params ps d1 = caters_params ps d2 := by
  induction ps with
  | nil => rfl
  | cons p rest ih =>
    have hp : caters_parameter p d1 = caters_parameter p d2 := by
      unfold caters_parameter
      cases hr : p.required with
      | false => simp
      | true => rw [h p (List.mem_cons_self p rest) hr]
    simp only [caters_params]
    rw [hp, ih (fun q hq hr => h q (List.mem_cons_of_mem p hq) hr)]

/-- C7: two documents that agree on the action_name field and on every
top-level field named by a required Parameter of the resolved Action get
the same validation result; fields of non-required Parameters and
undeclared fields never affect the outcome. -/
theorem C7_optional_fields_noninterference (meta : ServiceMeta) (d1 d2 : Json)
    (hname : d1.index "action_name" = d2.index "action_name")
    (hreq : ∀ a, meta.get_action d1 = some a →
      ∀ p ∈ a.parameters, p.required = true →
        d1.get p.param_name = d2.get p.param_name) :
    meta.caters d1 = meta.caters d2 := by
  have hga := get_action_congr meta d1 d2 hname
  unfold ServiceMeta.caters
  rw [hga]
  cases hg : meta.get_action d2 with
  | none => rfl
  | some action =>
    exact caters_params_congr action.parameters d1 d2 (hreq action (hga.trans hg))

/-- A well-formed document for mock_service: the required parameter only. -/
def doc_plain : Json :=
  .obj [("action_name", .str "action_1"), ("a_number_1", .num (.posInt 33))]

/-- The same document with an incompatible optional field and an undeclared
field added. -/
def doc_extras : Json :=
  .obj [("action_name", .str "action_1"), ("a_number_1", .num (.posInt 33)),
        ("a_number_2", .str "garbage"), ("junk", .null)]

/-- Witness for C7 at a concrete schema and documents. -/
theorem C7_witness :
    mock_service.caters doc_plain = mock_service.caters doc_extras :=
  C7_optional_fields_noninterference mock_service doc_plain doc_extras rfl
    (by
      intro a ha p hp hreq
      have ha2 : some mock_action_1 = some a := ha
      injection ha2 with ha3
      subst ha3
      simp only [mock_action_1, List.mem_cons, List.not_mem_nil, or_false] at hp
      rcases hp with rfl | rfl
      · rfl
      · exact absurd hreq (by decide))

/-- An empty action named a, described as the first of two duplicates. -/
def dup_action_first : Action :=
  { action_name := "a", description := "first", parameters := [], outputs := [] }

/-- An empty action named a, described as the second of two duplicates. -/
def dup_action_second : Action :=
  { action_name := "a", description := "second", parameters := [], outputs := [] }

/-- A schema with two actions sharing one name. -/
def dup_meta : ServiceMeta :=
  { service_name := "s", description := "", actions := [dup_action_first, dup_action_second] }

/-- C8 counterexample: lookup is first-match, so in a schema with duplicate
action names, looking up the name of the second action (itself a member of
the actions sequence) returns the first action, not the second. -/
theorem C8_counterexample_duplicate_names :
    dup_action_second ∈ dup_meta.actions ∧
      dup_meta.get_action
        (.obj [("action_name", .str dup_action_second.action_name)]) =
        some dup_action_first ∧
      dup_meta.get_action
        (.obj [("action_name", .str dup_action_second.action_name)]) ≠
        some dup_action_second := by
  refine ⟨by decide, by decide, by decide⟩

theorem find?_name_of_mem (l : List Action) (A : Action)
    (hmem : A ∈ l)
    (huniq : l.Pairwise (fun x y => x.action_name ≠ y.action_name)) :
    l.find? (fun action => A.action_name == action.action_name) = some A := by
  induction l with
  | nil => exact absurd hmem (List.not_mem_nil A)
  | cons B rest ih =>
    rcases List.mem_cons.mp hmem with rfl | hrest
    · rw [List.find?_cons_of_pos _ (by simp)]
    · have hBA : B.action_name ≠ A.action_name :=
        (List.pairwise_cons.mp huniq).1 A hrest
      rw [List.find?_cons_of_neg _ (by simp; exact fun h => hBA h.symm)]
      exact ih hrest (List.pairwise_cons.mp huniq).2

/-- C8 (amended): when no two declared actions of the schema share an
action_name (the spec expects names unique; the code is first-match),
looking up an action's own name returns that action. -/
theorem C8_lookup_reflexive (S : ServiceMeta) (A : Action)
    (hmem : A ∈ S.actions)
    (huniq : S.actions.Pairwise (fun x y => x.action_name ≠ y.action_name)) :
    S.get_action (.obj [("action_name", .str A.action_name)]) = some A := by
  unfold ServiceMeta.get_action
  have hidx : (Json.obj [("action_name", Json.str A.action_name)]).index
      "action_name" = .str A.action_name := by
    simp [Json.index, Json.get, List.lookup]
  rw [hidx]
  exact find?_name_of_mem S.actions A hmem huniq

/-- Witness for C8 at the test fixture schema. -/
theorem C8_witness :
    mock_service.get_action
      (.obj [("action_name", .str mock_action_1.action_name)]) =
      some mock_action_1 :=
  C8_lookup_reflexive mock_service mock_action_1 (by decide)
    (by simp [mock_service, List.pairwise_singleton])

/-- C9 counterexample: the spec's thirteen-variant list is not the source
type's variant set: no value of the source's ParameterType carries the tag
Int64 (the same holds for Double). -/
theorem C9_counterexample_no_int64 :
    ¬ ((∀ t ∈ spec_kind_tags, ∃ k : ParameterType, kind_tag k = t) ∧
        (∀ k : ParameterType, kind_tag k ∈ spec_kind_tags)) := by
  rintro ⟨h1, _⟩
  obtain ⟨k, hk⟩ := h1 "Int64" (by decide)
  cases k <;> simp only [kind_tag] at hk <;> exact absurd hk (by decide)

/-- C9 (amended): the source parameter-kind type is exactly the closed
eleven-variant set Bool, Uint8, Uint16, Uint32, Uint64, Int8, Int16, Int32,
Float, String, Enum (no Int64 and no Double variant exists), with
structural equality under which two Enum values are equal iff their
allowed-value lists are equal. -/
theorem C9_kind_variants :
    (∀ t ∈ source_kind_tags, ∃ k : ParameterType, kind_tag k = t)
  ∧ (∀ k : ParameterType, kind_tag k ∈ source_kind_tags)
  ∧ (∀ xs ys : List String,
      ParameterType.Enum xs = ParameterType.Enum ys ↔ xs = ys) := by
  refine ⟨?_, ?_, ?_⟩
  · intro t ht
    simp only [source_kind_tags, List.mem_cons, List.not_mem_nil, or_false] at ht
    rcases ht with rfl | rfl | rfl | rfl | rfl | rfl | rfl | rfl | rfl | rfl | rfl
    · exact ⟨.Bool, rfl⟩
    · exact ⟨.Uint8, rfl⟩
    · exact ⟨.Uint16, rfl⟩
    · exact ⟨.Uint32, rfl⟩
    · exact ⟨.Uint64, rfl⟩
    · exact ⟨.Int8, rfl⟩
    · exact ⟨.Int16, rfl⟩
    · exact ⟨.Int32, rfl⟩
    · exact ⟨.Float, rfl⟩
    · exact ⟨.String, rfl⟩
    · exact ⟨.Enum [], rfl⟩
  · intro k
    cases k <;> simp only [kind_tag] <;> decide
  · intro xs ys
    constructor
    · intro h
      injection h
    · intro h
      rw [h]

/-- C10: for every declared parameter kind, a required field present with
JSON null fails the compatibility check, and document validation reports
the missing-or-invalid-parameter reason. -/
theorem C10_null_never_accepted (t : ParameterType) (nm ds : String)
    (df : Option String) :
    caters_parameter
      { param_name := nm, description := ds, type_ := t,
        required := true, default := df } (field_doc nm .null) = false
  ∧ (single_meta t).caters (.obj [("action_name", .str "a"), ("x", .null)]) =
      .error "Parameter not found" := by
  constructor
  · simp [caters_parameter, field_doc_get, kind_accepts_null]
  · have h : caters_parameter (rparam "x" t)
        (.obj [("action_name", .str "a"), ("x", .null)]) = false := by
      simp [caters_parameter, rparam, Json.get, List.lookup, kind_accepts_null]
    have hget : (single_meta t).get_action
        (.obj [("action_name", .str "a"), ("x", .null)]) =
        some { action_name := "a", description := "",
               parameters := [rparam "x" t], outputs := [] } := rfl
    unfold ServiceMeta.caters
    rw [hget]
    simp [caters_params, h]

theorem envelope_params_error_of_unmatched (ps : List Parameter)
    (req : ServiceRequest) (p : Parameter) (hp : p ∈ ps) (hr : p.required = true)
    (hno : ∀ rp ∈ req.parameters,
      rp.param_name = p.param_name → rp.type_ ≠ p.type_) :
    envelope_caters_params ps req = .error "MissingRequiredParameter" := by
  induction ps with
  | nil => exact absurd hp (List.not_mem_nil p)
  | cons q rest ih =>
    rcases List.mem_cons.mp hp with rfl | hrest
    · have hany : req.parameters.any
          (fun rp => rp.param_name == p.param_name && rp.type_ == p.type_) = false := by
        rw [List.any_eq_false]
        intro rp hrp
        simp only [Bool.and_eq_true, beq_iff_eq, not_and]
        intro hn hk
        exact hno rp hrp hn hk
      simp [envelope_caters_params, hr, hany]
    · by_cases hq : q.required = true
      · simp only [envelope_caters_params, hq, Bool.not_true, Bool.false_eq_true,
          if_false]
        by_cases hq2 : req.parameters.any
            (fun rp => rp.param_name == q.param_name && rp.type_ == q.type_) = true
        · simp only [hq2, if_true]
          exact ih hrest
        · simp [hq2]
      · have hq3 : q.required = false := by
          cases hqq : q.required
          · rfl
          · exact absurd hqq hq
        simp only [envelope_caters_params, hq3, Bool.not_false, if_true]
        exact ih hrest

theorem envelope_params_value_blind (ps : List Parameter) (req : ServiceRequest)
    (f : RequestParameter → String) :
    envelope_caters_params ps
      { action_name := req.action_name, uuid := req.uuid,
        parameters := req.parameters.map
          (fun rp => { param_name := rp.param_name, value := f rp,
                       type_ := rp.type_ }) } =
      envelope_caters_params ps req := by
  induction ps with
  | nil => rfl
  | cons p rest ih =>
    have hany : (req.parameters.map
        (fun rp => ({ param_name := rp.param_name, value := f rp,
                      type_ := rp.type_ } : RequestParameter))).any
        (fun rp => rp.param_name == p.param_name && rp.type_ == p.type_) =
        req.parameters.any
          (fun rp => rp.param_name == p.param_name && rp.type_ == p.type_) := by
      rw [List.any_map]
      rfl
    simp only [envelope_caters_params, hany, ih]

/-- C4: in envelope mode a request supplying a required parameter under the
correct name but a declared kind not structurally equal to the schema's
kind for that parameter (Enum allowed-value lists included, through the
structural equality of ParameterType) is rejected with
MissingRequiredParameter; and the request's textual values never affect the
outcome. -/
theorem C4_envelope_kind_mismatch :
    (∀ (meta : ServiceMeta) (req : ServiceRequest) (a : Action) (p : Parameter),
      envelope_get_action meta req = some a → p ∈ a.parameters →
      p.required = true →
      (∀ rp ∈ req.parameters,
        rp.param_name = p.param_name → rp.type_ ≠ p.type_) →
      meta.envelope_caters req = .error "MissingRequiredParameter")
  ∧ (∀ (meta : ServiceMeta) (req : ServiceRequest) (f : RequestParameter → String),
      meta.envelope_caters
        { action_name := req.action_name, uuid := req.uuid,
          parameters := req.parameters.map
            (fun rp => { param_name := rp.param_name, value := f rp,
                         type_ := rp.type_ }) } =
        meta.envelope_caters req) := by
  constructor
  · intro meta req a p hga hp hr hno
    unfold ServiceMeta.envelope_caters
    rw [hga]
    exact envelope_params_error_of_unmatched a.parameters req p hp hr hno
  · intro meta req f
    unfold ServiceMeta.envelope_caters
    have hga : envelope_get_action meta
        { action_name := req.action_name, uuid := req.uuid,
          parameters := req.parameters.map
            (fun rp => { param_name := rp.param_name, value := f rp,
                         type_ := rp.type_ }) } =
        envelope_get_action meta req := rfl
    rw [hga]
    cases envelope_get_action meta req with
    | none => rfl
    | some action => exact envelope_params_value_blind action.parameters req f

end Esparrag
